import Mathlib

/-!
Verification of the JSON-RPC codec in fastjsonrpc/jsonrpc.py.

The JSON text transform (json.loads / json.dumps) is an injected external
capability per the design: the embedding represents wire text by the parsed
JSON value itself (an unparseable text is `none`), and models Python's
division of JSON numbers into `int` (no fractional part) and `float`,
because the source distinguishes them with isinstance checks.
-/

namespace FastJsonRpc

/-- JSON values as returned by the injected JSON parse capability. Python's
json module parses a JSON number without a fractional part to an `int` and
one with a fractional part to a `float`; the two constructors keep that
distinction because the source code tests it with isinstance. -/
inductive Json where
  | null : Json
  | bool : Bool → Json
  | int : Int → Json
  | float : ℚ → Json
  | str : String → Json
  | arr : List Json → Json
  | obj : List (String × Json) → Json

/-- Python `value is None` on a parsed JSON value. -/
def Json.isNull : Json → Bool
  | .null => true
  | _ => false

/-- Python `isinstance(value, types.StringTypes)` on a parsed JSON value. -/
def Json.isStr : Json → Bool
  | .str _ => true
  | _ => false

/-- Python `isinstance(value, (types.ListType, types.TupleType))` on a parsed
JSON value (json.loads only ever produces lists). -/
def Json.isArr : Json → Bool
  | .arr _ => true
  | _ => false

/-- Python `value == s` between a parsed JSON value and a string: true exactly
when the value is that string (equality with any non-string JSON value is
False in Python). -/
def Json.eqStr (x : Json) (s : String) : Bool :=
  match x with
  | .str t => t = s
  | _ => false

/-- Python dict key lookup (`d[k]` / `k in d`) on the association-list image
of a parsed JSON object; json.loads never produces duplicate keys, so the
first match is the binding. -/
def dictGet (kvs : List (String × Json)) (k : String) : Option Json :=
  match kvs with
  | [] => none
  | (k2, v) :: rest => if k2 = k then some v else dictGet rest k

/-- Python dict item assignment `d[k] = v`: replace the value in place when
the key exists, append the new binding otherwise. -/
def dictSet (kvs : List (String × Json)) (k : String) (v : Json) :
    List (String × Json) :=
  match kvs with
  | [] => [(k, v)]
  | (k2, v2) :: rest =>
      if k2 = k then (k2, v) :: rest else (k2, v2) :: dictSet rest k v


/-- Shape test: is the value a float scalar? Used only to state claims. -/
def Json.isFloat : Json → Bool
  | .float _ => true
  | _ => false

def VERSION_1 : ℚ := 1
def VERSION_2 : ℚ := 2

def PARSE_ERROR : Int := -32700
def INVALID_REQUEST : Int := -32600
def METHOD_NOT_FOUND : Int := -32601
def INVALID_PARAMS : Int := -32602
def INTERNAL_ERROR : Int := -32603

def ID_MIN : Int := 1
def ID_MAX : Int := 2 ^ 31 - 1

/-- Numeric value of a run of decimal digit characters. -/
def digitsVal (ds : List Char) : ℕ :=
  ds.foldl (fun a c => 10 * a + (c.toNat - 48)) 0

/-- Digits-and-dot core of Python's builtin float() on a string: an integer
part, optionally a dot and a fractional part, with at least one digit
overall. -/
def pyFloatDigits (cs : List Char) : Option ℚ :=
  let intPart := cs.takeWhile Char.isDigit
  let rest := cs.dropWhile Char.isDigit
  match rest with
  | [] => if intPart.isEmpty then none else some (mkRat (digitsVal intPart) 1)
  | '.' :: frac =>
      if frac.all Char.isDigit && !(intPart.isEmpty && frac.isEmpty) then
        some (mkRat (digitsVal intPart * 10 ^ frac.length + digitsVal frac)
                (10 ^ frac.length))
      else none
  | _ => none

/-- Python's builtin float() applied to a string, modelled on its plain
decimal core (optional sign, digits, optional fractional part). Returns
none when the conversion raises ValueError, e.g. on non-numeric text. -/
def pyFloat (s : String) : Option ℚ :=
  match s.data with
  | '+' :: cs => pyFloatDigits cs
  | '-' :: cs => (pyFloatDigits cs).map Neg.neg
  | cs => pyFloatDigits cs

/-- The JSONRPCError exception class (jsonrpc.py lines 235–257): a message,
an error code, optional extra data, and the correlation id and version, as
set by its constructor. The constructor defaults are data=None, id_=None,
version=VERSION_1; fields are always spelled out here. The id can be any
parsed JSON value; the version field holds whatever value was passed
(decodeRequest can pass a raw non-numeric wire value through it). -/
structure JSONRPCError where
  strerror : String
  errno : Int
  data : Option Json
  id_ : Option Json
  version : Json

/-- JSONRPCError('Failed to parse JSON', PARSE_ERROR) raised at line 127;
the constructor defaults supply data=None, id_=None, version=VERSION_1. -/
def parseFailedErr : JSONRPCError :=
  { strerror := "Failed to parse JSON", errno := PARSE_ERROR, data := none,
    id_ := none, version := Json.float VERSION_1 }

/-- JSONRPCError('Invalid jsonrpc type', INVALID_REQUEST) raised at line 135,
before the except-clause attaches context. -/
def invalidJsonrpcErr : JSONRPCError :=
  { strerror := "Invalid jsonrpc type", errno := INVALID_REQUEST, data := none,
    id_ := none, version := Json.float VERSION_1 }

/-- JSONRPCError('Invalid method type', INVALID_REQUEST) raised at line 142,
before the except-clause attaches context. -/
def invalidMethodErr : JSONRPCError :=
  { strerror := "Invalid method type", errno := INVALID_REQUEST, data := none,
    id_ := none, version := Json.float VERSION_1 }

/-- JSONRPCError('Invalid params type', INVALID_REQUEST) raised at line 145,
before the except-clause attaches context. -/
def invalidParamsErr : JSONRPCError :=
  { strerror := "Invalid params type", errno := INVALID_REQUEST, data := none,
    id_ := none, version := Json.float VERSION_1 }

/-- Outcome of a failing decodeRequest call: either the structured
JSONRPCError the source raises, or a Python-level exception escaping the
function unclassified — KeyError from a missing dict key, TypeError from
membership/indexing on a non-dict parse, ValueError from float() applied to
a non-numeric string (the except-clause at line 147 catches only
JSONRPCError). -/
inductive PyError where
  | rpc : JSONRPCError → PyError
  | keyError : String → PyError
  | typeError : String → PyError
  | valueError : String → PyError

/-- The except-clause of decodeRequest (lines 147–158): re-raise the caught
JSONRPCError with the same strerror and errno, attaching the id and jsonrpc
entries of the (possibly already mutated) decoded dict when present; the
constructor defaults supply data=None, id_=None and version=VERSION_1 for
whatever is not attached. -/
def addContext (e : JSONRPCError) (decoded : List (String × Json)) :
    JSONRPCError :=
  match dictGet decoded "id", dictGet decoded "jsonrpc" with
  | some i, some v =>
      { strerror := e.strerror, errno := e.errno, data := none,
        id_ := some i, version := v }
  | some i, none =>
      { strerror := e.strerror, errno := e.errno, data := none,
        id_ := some i, version := Json.float VERSION_1 }
  | none, some v =>
      { strerror := e.strerror, errno := e.errno, data := none,
        id_ := none, version := v }
  | none, none =>
      { strerror := e.strerror, errno := e.errno, data := none,
        id_ := none, version := Json.float VERSION_1 }

/-- The method and params checks of decodeRequest (lines 141–145) plus the
final return (line 160), run on the decoded dict after the jsonrpc field has
been normalized. `decoded['method']` on a missing key raises KeyError, which
the except-clause does not catch. -/
def decodeRequestChecks (decoded : List (String × Json)) :
    Except PyError (List (String × Json)) :=
  match dictGet decoded "method" with
  | none => .error (.keyError "method")
  | some m =>
      if m.isStr then
        match dictGet decoded "params" with
        | none => .error (.keyError "params")
        | some p =>
            if p.isArr then .ok decoded
            else .error (.rpc (addContext invalidParamsErr decoded))
      else .error (.rpc (addContext invalidMethodErr decoded))

/-- The string arm of the jsonrpc normalization (lines 133–137): the value
passes the isinstance check, then goes through float(); a failing conversion
raises an uncaught ValueError. -/
def jsonrpcStrCase (decoded : List (String × Json)) (s : String) :
    Except PyError (List (String × Json)) :=
  match pyFloat s with
  | some q => decodeRequestChecks (dictSet decoded "jsonrpc" (Json.float q))
  | none => .error (.valueError "could not convert string to float")

/-- The try-block body of decodeRequest (lines 129–160) on a parsed object:
normalize the jsonrpc field (lines 132–139), then validate method and
params. A jsonrpc value that is neither a string nor a float raises
JSONRPCError before the dict is mutated, so the except-clause sees the
original value under the jsonrpc key. -/
def decodeRequestObj (decoded : List (String × Json)) :
    Except PyError (List (String × Json)) :=
  match dictGet decoded "jsonrpc" with
  | some (Json.str s) => jsonrpcStrCase decoded s
  | some (Json.float q) =>
      decodeRequestChecks (dictSet decoded "jsonrpc" (Json.float q))
  | some _ => .error (.rpc (addContext invalidJsonrpcErr decoded))
  | none => decodeRequestChecks (dictSet decoded "jsonrpc" (Json.float VERSION_1))

/-- decodeRequest (jsonrpc.py lines 113–160). The argument is the result of
the injected JSON parse: `none` models a text json.loads rejects, which the
source turns into JSONRPCError(PARSE_ERROR). A parse yielding a non-object
value reaches the membership test and the item accesses/assignments of the
try-block, all of which raise TypeError in Python 2 on scalars, strings and
lists (string membership is a substring test followed by string indexing or
item assignment, list membership is element equality followed by indexing or
assignment with a string index), so every non-object parse maps to an
escaping TypeError. -/
def decodeRequest (request : Option Json) :
    Except PyError (List (String × Json)) :=
  match request with
  | none => .error (.rpc parseFailedErr)
  | some (Json.obj decoded) => decodeRequestObj decoded
  | some _ => .error (.typeError "membership or item access on a non-dict")

/-- encodeRequest (jsonrpc.py lines 53–87). Argument types follow the
function's documented contract: method a str, args a list, id an int or
None, version a float. The random.randint(ID_MIN, ID_MAX) draw taken in the
id==0 branch is passed in explicitly as `rand`; json.dumps is the injected
serializer, so the wire text is represented by the finished JSON object
itself. -/
def encodeRequest (method : String) (args : List Json) (id_ : Option Int)
    (version : ℚ) (rand : Int) : Json :=
  let request := dictSet (dictSet [] "method" (Json.str method))
    "params" (Json.arr args)
  let request :=
    match id_ with
    | none => request
    | some i => dictSet request "id" (Json.int (if i = 0 then rand else i))
  let request :=
    if version = VERSION_2 then dictSet request "jsonrpc" (Json.str "2.0")
    else request
  Json.obj request

/-- Outcome of a failing decodeResponse call: the bare
Exception(response['error']) carrying the error body (line 109), the
ValueError('Not a valid JSON-RPC response') carrying no protocol code (line
111), a TypeError from membership/indexing on a non-dict parse, or the
uncaught ValueError of json.loads itself on unparseable text. -/
inductive RespError where
  | exc : Json → RespError
  | invalidResponse : RespError
  | typeError : String → RespError
  | parseFailed : RespError

/-- The error-or-invalid tail of decodeResponse (lines 108–111) on a parsed
object whose result field was absent or null. -/
def decodeResponseTail (kvs : List (String × Json)) : Except RespError Json :=
  match dictGet kvs "error" with
  | some e => if e.isNull then .error .invalidResponse else .error (.exc e)
  | none => .error .invalidResponse

/-- Contiguous-sublist test on character lists, for Python's substring
membership `needle in haystack` on strings. -/
def subList (needle : List Char) : List Char → Bool
  | [] => needle.isEmpty
  | c :: rest => needle.isPrefixOf (c :: rest) || subList needle rest

/-- decodeResponse (jsonrpc.py lines 89–111). The argument is the result of
the injected JSON parse; `none` models unparseable text, whose ValueError
from json.loads escapes uncaught. On a parsed object: a present non-null
result field is returned; else a present non-null error field is raised as
a bare Exception carrying that body; else ValueError('Not a valid JSON-RPC
response'). On a parsed string, `'result' in response` is a substring test
and a hit leads to string indexing with a string key (TypeError), as does a
hit on 'error'; with neither substring both guards are False and the
ValueError branch is reached. On a parsed list, membership compares elements
against the key strings and a hit leads to list indexing with a string key
(TypeError). On any other parse, membership itself raises TypeError. -/
def decodeResponse (response : Option Json) : Except RespError Json :=
  match response with
  | none => .error .parseFailed
  | some (Json.obj kvs) =>
      match dictGet kvs "result" with
      | some v => if v.isNull then decodeResponseTail kvs else .ok v
      | none => decodeResponseTail kvs
  | some (Json.str s) =>
      if subList "result".data s.data || subList "error".data s.data then
        .error (.typeError "string indices must be integers")
      else .error .invalidResponse
  | some (Json.arr xs) =>
      if xs.any (fun x => x.eqStr "result") || xs.any (fun x => x.eqStr "error") then
        .error (.typeError "list indices must be integers")
      else .error .invalidResponse
  | some _ => .error (.typeError "argument is not iterable")

/-- The attribute surface of the exception value carried by a twisted
Failure, as probed reflectively by encodeResponse.getErrorResponse:
`strerror` is str(value.strerror) when that attribute exists; `strForm` is
str(value); `isTypeError` is isinstance(value, TypeError); `errno` is the
value's errno attribute when it exists; `data` is the value's data
attribute when it exists and is not None (an absent attribute and a None
value lead to the same AttributeError/is-not-None skip). -/
structure PyExc where
  strerror : Option String
  strForm : String
  isTypeError : Bool
  errno : Option Int
  data : Option Json

/-- The result argument of encodeResponse: either a plain successful payload
or a twisted Failure wrapping an application exception
(isinstance(result, Failure)). -/
inductive CallResult where
  | success : Json → CallResult
  | failure : PyExc → CallResult

/-- getErrorResponse (jsonrpc.py lines 179–210): build the error body dict
from the Failure's exception value — message from str(value.strerror) when
present else str(value); code INVALID_PARAMS for a TypeError, else the
value's errno attribute when present, else INTERNAL_ERROR; a data key only
when a non-None data attribute exists. -/
def getErrorResponse (e : PyExc) : List (String × Json) :=
  let er := dictSet [] "message"
    (Json.str (match e.strerror with | some s => s | none => e.strForm))
  let er := dictSet er "code"
    (Json.int (if e.isTypeError then INVALID_PARAMS
               else match e.errno with | some n => n | none => INTERNAL_ERROR))
  match e.data with
  | some d => dictSet er "data" d
  | none => er

/-- encodeResponse (jsonrpc.py lines 162–232). The dict built by
getErrorResponse always holds at least a message and a code, so the
truthiness test `if error_result:` at line 223 is equivalent to result being
a Failure. json.dumps is the injected serializer, so the wire text is
represented by the finished JSON object itself; note that the v2.0 branch
stores the version itself (a float) under the jsonrpc key. -/
def encodeResponse (result : CallResult) (id_ : Json) (version : ℚ) : Json :=
  let response := dictSet [] "id" id_
  let response :=
    if version = VERSION_2 then dictSet response "jsonrpc" (Json.float version)
    else response
  let response :=
    match result with
    | .failure f =>
        let response := dictSet response "error" (Json.obj (getErrorResponse f))
        if version = VERSION_1 then dictSet response "result" Json.null
        else response
    | .success v =>
        let response := dictSet response "result" v
        if version = VERSION_1 then dictSet response "error" Json.null
        else response
  Json.obj response

/-- The field list of an encoded (object-valued) wire message. -/
def objFields : Json → List (String × Json)
  | .obj kvs => kvs
  | _ => []

/-- Guard used to state claims about decodeRequest: true unless the jsonrpc
entry is a string that Python's float() rejects (the one case in which the
conversion's ValueError escapes the function). -/
def jsonrpcConvertible (d : List (String × Json)) : Bool :=
  match dictGet d "jsonrpc" with
  | some (Json.str s) => (pyFloat s).isSome
  | _ => true

/-- The claim-level description of a request dict whose validation the
method/params checks must reject: a method entry that is not a text value,
or a text method with a params entry that is not a list. Used only to state
claims. -/
def badShape (d : List (String × Json)) : Prop :=
  (∃ m, dictGet d "method" = some m ∧ m.isStr = false) ∨
  ((∃ t, dictGet d "method" = some (Json.str t)) ∧
    ∃ p, dictGet d "params" = some p ∧ p.isArr = false)

/-- The structured error decodeRequest raises on the spec's context
preservation example. -/
def c6ExampleErr : JSONRPCError :=
  { strerror := "Invalid method type", errno := INVALID_REQUEST, data := none,
    id_ := some (Json.int 7), version := Json.float 2 }


/-- The structured error decodeRequest raises on a request whose jsonrpc
field is the integer scalar 2: the raw integer travels into the error's
version slot. -/
def c7CexErr : JSONRPCError :=
  { strerror := "Invalid jsonrpc type", errno := INVALID_REQUEST, data := none,
    id_ := none, version := Json.int 2 }

example : pyFloat "2.0" = some 2 := by rfl
example : pyFloat "1.0" = some 1 := by rfl
example : pyFloat "x" = none := by rfl
example : pyFloat "2" = some 2 := by rfl

theorem dictGet_dictSet_self (kvs : List (String × Json)) (k : String)
    (v : Json) : dictGet (dictSet kvs k v) k = some v := by
  induction kvs with
  | nil => simp [dictGet, dictSet]
  | cons hd tl ih =>
      obtain ⟨k2, v2⟩ := hd
      by_cases h : k2 = k
      · simp [dictGet, dictSet, h]
      · simp [dictGet, dictSet, h, ih]

theorem dictGet_dictSet_ne (kvs : List (String × Json)) (k k2 : String)
    (v : Json) (h : k ≠ k2) :
    dictGet (dictSet kvs k v) k2 = dictGet kvs k2 := by
  induction kvs with
  | nil => simp [dictGet, dictSet, h, Ne.symm h]
  | cons hd tl ih =>
      obtain ⟨k3, v3⟩ := hd
      by_cases h3 : k3 = k
      · subst h3
        simp [dictGet, dictSet, h, Ne.symm h]
      · simp only [dictSet, if_neg h3]
        by_cases h4 : k3 = k2 <;> simp [dictGet, h4, ih]

theorem addContext_spec (e : JSONRPCError) (d : List (String × Json)) :
    (addContext e d).strerror = e.strerror ∧
    (addContext e d).errno = e.errno ∧
    (addContext e d).data = none ∧
    (addContext e d).id_ = dictGet d "id" ∧
    (addContext e d).version = (dictGet d "jsonrpc").getD (Json.float VERSION_1) := by
  unfold addContext
  cases h1 : dictGet d "id" <;> cases h2 : dictGet d "jsonrpc" <;> simp

/-- Any structured JSONRPCError raised out of decodeRequestChecks carries
errno INVALID_REQUEST and the id and normalized-version context of the dict
it was checking. -/
theorem decodeRequestChecks_rpc (d : List (String × Json)) (e : JSONRPCError)
    (h : decodeRequestChecks d = .error (.rpc e)) :
    e.errno = INVALID_REQUEST ∧ e.id_ = dictGet d "id" ∧
    e.version = (dictGet d "jsonrpc").getD (Json.float VERSION_1) := by
  unfold decodeRequestChecks at h
  split at h
  · exact absurd h (by simp)
  · split at h
    · split at h
      · exact absurd h (by simp)
      · split at h
        · exact absurd h (by simp)
        · simp only [Except.error.injEq, PyError.rpc.injEq] at h
          obtain ⟨h1, h2, _, h4, h5⟩ := addContext_spec invalidParamsErr d
          subst h
          exact ⟨h2, h4, h5⟩
    · simp only [Except.error.injEq, PyError.rpc.injEq] at h
      obtain ⟨h1, h2, _, h4, h5⟩ := addContext_spec invalidMethodErr d
      subst h
      exact ⟨h2, h4, h5⟩

/-- If the method/params checks raise a structured error on a dict whose
jsonrpc entry was just assigned, the error carries the original dict's id
and the assigned version value. -/
theorem decodeRequestChecks_set_rpc (d : List (String × Json)) (x : Json)
    (e : JSONRPCError)
    (h : decodeRequestChecks (dictSet d "jsonrpc" x) = .error (.rpc e)) :
    e.errno = INVALID_REQUEST ∧ e.id_ = dictGet d "id" ∧ e.version = x := by
  obtain ⟨h1, h2, h3⟩ := decodeRequestChecks_rpc _ e h
  refine ⟨h1, ?_, ?_⟩
  · rw [h2, dictGet_dictSet_ne d "jsonrpc" "id" x (by decide)]
  · rw [h3, dictGet_dictSet_self]; rfl

/-- C1. Round-trip: for a well-formed request (id an integer other than 0,
supplied rather than omitted, version 1.0 or 2.0), decoding the encoded
wire form succeeds and recovers the method, the params, the id, and a
normalized float version equal to the one supplied — 1.0 when the wire form
omitted the jsonrpc field, 2.0 when it carried "jsonrpc": "2.0". -/
theorem requestRoundTrip (m : String) (a : List Json) (i : Int) (v : ℚ)
    (rand : Int) (hi : i ≠ 0) (hv : v = VERSION_1 ∨ v = VERSION_2) :
    decodeRequest (some (encodeRequest m a (some i) v rand)) =
      .ok [("method", Json.str m), ("params", Json.arr a),
           ("id", Json.int i), ("jsonrpc", Json.float v)] := by
  have h0 : (if i = 0 then rand else i) = i := if_neg hi
  rcases hv with h | h <;> subst h <;> simp only [encodeRequest, h0] <;> rfl

/-- Witness for C1 at method "foo", params [1], id 7, version 2.0. -/
theorem requestRoundTrip_witness :
    (7 : Int) ≠ 0 ∧ ((2 : ℚ) = VERSION_1 ∨ (2 : ℚ) = VERSION_2) ∧
    decodeRequest (some (encodeRequest "foo" [Json.int 1] (some 7) 2 99)) =
      .ok [("method", Json.str "foo"), ("params", Json.arr [Json.int 1]),
           ("id", Json.int 7), ("jsonrpc", Json.float 2)] :=
  ⟨by decide, Or.inr rfl,
    requestRoundTrip "foo" [Json.int 1] 7 2 99 (by decide) (Or.inr rfl)⟩

/-- C6. Correlation context on validation failure: whenever decodeRequest
raises a structured error on a parsed object, the error carries errno
INVALID_REQUEST, the parsed id exactly when an id entry was present, the
normalized version when a valid jsonrpc entry (float, or string converting
to a float) was present, and the default version 1.0 — no wire-derived
version — when no jsonrpc entry was present. -/
theorem correlationContext (d : List (String × Json)) (e : JSONRPCError)
    (h : decodeRequest (some (Json.obj d)) = .error (.rpc e)) :
    e.errno = INVALID_REQUEST ∧
    (∀ i, dictGet d "id" = some i → e.id_ = some i) ∧
    (dictGet d "id" = none → e.id_ = none) ∧
    (∀ q, dictGet d "jsonrpc" = some (Json.float q) → e.version = Json.float q) ∧
    (∀ s q, dictGet d "jsonrpc" = some (Json.str s) → pyFloat s = some q →
      e.version = Json.float q) ∧
    (dictGet d "jsonrpc" = none → e.version = Json.float VERSION_1) := by
  have h2 : decodeRequestObj d = .error (.rpc e) := h
  unfold decodeRequestObj at h2
  split at h2
  · -- jsonrpc entry is a string s
    rename_i s heq
    unfold jsonrpcStrCase at h2
    split at h2
    · -- float(s) succeeds with value q
      rename_i q hq
      obtain ⟨he, hi, hv⟩ := decodeRequestChecks_set_rpc d _ e h2
      refine ⟨he, fun i hid => by rw [hi, hid], fun hid => by rw [hi, hid],
        fun q2 hq2 => ?_, fun s2 q2 hs2 hq3 => ?_, fun hn => ?_⟩
      · rw [heq] at hq2
        exact absurd hq2 (by simp)
      · rw [heq] at hs2
        simp only [Option.some.injEq, Json.str.injEq] at hs2
        subst hs2
        rw [hq] at hq3
        simp only [Option.some.injEq] at hq3
        subst hq3
        exact hv
      · rw [heq] at hn
        exact absurd hn (by simp)
    · -- float(s) raises ValueError: no structured error arises
      exact absurd h2 (by simp)
  · -- jsonrpc entry is already a float q
    rename_i q heq
    obtain ⟨he, hi, hv⟩ := decodeRequestChecks_set_rpc d _ e h2
    refine ⟨he, fun i hid => by rw [hi, hid], fun hid => by rw [hi, hid],
      fun q2 hq2 => ?_, fun s2 q2 hs2 hq3 => ?_, fun hn => ?_⟩
    · rw [heq] at hq2
      simp only [Option.some.injEq, Json.float.injEq] at hq2
      subst hq2
      exact hv
    · rw [heq] at hs2
      exact absurd hs2 (by simp)
    · rw [heq] at hn
      exact absurd hn (by simp)
  · -- jsonrpc entry has an invalid shape: context still attached
    rename_i val hns hnf heq
    simp only [Except.error.injEq, PyError.rpc.injEq] at h2
    obtain ⟨_, he, _, hi, hv⟩ := addContext_spec invalidJsonrpcErr d
    rw [h2] at he hi hv
    refine ⟨he.trans rfl, fun i hid => by rw [hi, hid], fun hid => by rw [hi, hid],
      fun q2 hq2 => ?_, fun s2 q2 hs2 hq3 => ?_, fun hn => ?_⟩
    · rw [heq] at hq2
      simp only [Option.some.injEq] at hq2
      exact absurd hq2 (hnf q2)
    · rw [heq] at hs2
      simp only [Option.some.injEq] at hs2
      exact absurd hs2 (hns s2)
    · rw [heq] at hn
      exact absurd hn (by simp)
  · -- no jsonrpc entry: version defaults to 1.0
    rename_i heq
    obtain ⟨he, hi, hv⟩ := decodeRequestChecks_set_rpc d _ e h2
    refine ⟨he, fun i hid => by rw [hi, hid], fun hid => by rw [hi, hid],
      fun q2 hq2 => ?_, fun s2 q2 hs2 hq3 => ?_, fun _ => hv⟩
    · rw [heq] at hq2
      exact absurd hq2 (by simp)
    · rw [heq] at hs2
      exact absurd hs2 (by simp)

/-- Witness for C6 at the spec's example, the wire form
with method 5, params [], id 7 and jsonrpc "2.0": the failure carries
INVALID_REQUEST with id 7 and version 2.0. -/
theorem correlationContext_witness :
    decodeRequest (some (Json.obj
      [("method", Json.int 5), ("params", Json.arr []), ("id", Json.int 7),
       ("jsonrpc", Json.str "2.0")])) = .error (.rpc c6ExampleErr) ∧
    c6ExampleErr.errno = INVALID_REQUEST ∧
    c6ExampleErr.id_ = some (Json.int 7) ∧
    c6ExampleErr.version = Json.float 2 :=
  ⟨rfl,
    (correlationContext
      [("method", Json.int 5), ("params", Json.arr []), ("id", Json.int 7),
       ("jsonrpc", Json.str "2.0")] c6ExampleErr rfl).1,
    (correlationContext
      [("method", Json.int 5), ("params", Json.arr []), ("id", Json.int 7),
       ("jsonrpc", Json.str "2.0")] c6ExampleErr rfl).2.1 (Json.int 7) rfl,
    (correlationContext
      [("method", Json.int 5), ("params", Json.arr []), ("id", Json.int 7),
       ("jsonrpc", Json.str "2.0")] c6ExampleErr rfl).2.2.2.2.1 "2.0" 2 rfl rfl⟩

/-- C8. encodeRequest id and version framing: id None omits the id key; id 0
stores the generated draw, an integer within [ID_MIN, ID_MAX] by the
randint contract; any other id is stored unchanged; the jsonrpc key holds
"2.0" exactly when the version is 2.0; method and params are always included
as given. -/
theorem encodeRequestFraming (m : String) (a : List Json) (v : ℚ) (rand : Int) :
    dictGet (objFields (encodeRequest m a none v rand)) "id" = none ∧
    (ID_MIN ≤ rand ∧ rand ≤ ID_MAX →
      dictGet (objFields (encodeRequest m a (some 0) v rand)) "id"
        = some (Json.int rand) ∧ ID_MIN ≤ rand ∧ rand ≤ ID_MAX) ∧
    (∀ i : Int, i ≠ 0 →
      dictGet (objFields (encodeRequest m a (some i) v rand)) "id"
        = some (Json.int i)) ∧
    (∀ id_ : Option Int,
      dictGet (objFields (encodeRequest m a id_ v rand)) "method"
        = some (Json.str m) ∧
      dictGet (objFields (encodeRequest m a id_ v rand)) "params"
        = some (Json.arr a) ∧
      dictGet (objFields (encodeRequest m a id_ v rand)) "jsonrpc"
        = (if v = VERSION_2 then some (Json.str "2.0") else none)) := by
  by_cases hv : v = VERSION_2
  · subst hv
    refine ⟨rfl, fun h => ⟨rfl, h⟩, fun i hi => ?_, fun id_ => ?_⟩
    · show some (Json.int (if i = 0 then rand else i)) = some (Json.int i)
      rw [if_neg hi]
    · cases id_ <;> exact ⟨rfl, rfl, by rw [if_pos rfl]; exact rfl⟩
  · have henc : ∀ x : Option Int, objFields (encodeRequest m a x v rand) =
        (match x with
          | none => [("method", Json.str m), ("params", Json.arr a)]
          | some i => [("method", Json.str m), ("params", Json.arr a),
                       ("id", Json.int (if i = 0 then rand else i))]) := by
      intro x
      cases x <;> simp only [encodeRequest, if_neg hv] <;> rfl
    refine ⟨?_, fun h => ⟨?_, h⟩, fun i hi => ?_, fun id_ => ?_⟩
    · rw [henc none]
      exact rfl
    · rw [henc (some 0)]
      exact rfl
    · rw [henc (some i)]
      show some (Json.int (if i = 0 then rand else i)) = some (Json.int i)
      rw [if_neg hi]
    · cases id_ <;>
        (rw [henc _]; exact ⟨rfl, rfl, by rw [if_neg hv]; exact rfl⟩)

/-- Witness for C8 at method "m", empty params, version 2.0, draw 5. -/
theorem encodeRequestFraming_witness :
    (ID_MIN ≤ (5 : Int) ∧ (5 : Int) ≤ ID_MAX) ∧
    dictGet (objFields (encodeRequest "m" [] (some 0) 2 5)) "id"
      = some (Json.int 5) ∧
    dictGet (objFields (encodeRequest "m" [] (some 7) 2 5)) "id"
      = some (Json.int 7) :=
  ⟨⟨by decide, by decide⟩,
    ((encodeRequestFraming "m" [] 2 5).2.1 ⟨by decide, by decide⟩).1,
    (encodeRequestFraming "m" [] 2 5).2.2.1 7 (by decide)⟩

/-- C3. Response framing invariant: a v1.0 response carries both the result
and error keys, the populated one holding its payload and the other an
explicit JSON null; a v2.0 response carries exactly the populated one of the
two, plus the jsonrpc and id fields. -/
theorem encodeResponseFraming (v : Json) (f : PyExc) (id_ : Json) :
    encodeResponse (.success v) id_ VERSION_1 =
      Json.obj [("id", id_), ("result", v), ("error", Json.null)] ∧
    encodeResponse (.failure f) id_ VERSION_1 =
      Json.obj [("id", id_), ("error", Json.obj (getErrorResponse f)),
                ("result", Json.null)] ∧
    encodeResponse (.success v) id_ VERSION_2 =
      Json.obj [("id", id_), ("jsonrpc", Json.float 2), ("result", v)] ∧
    encodeResponse (.failure f) id_ VERSION_2 =
      Json.obj [("id", id_), ("jsonrpc", Json.float 2),
                ("error", Json.obj (getErrorResponse f))] ∧
    dictGet (objFields (encodeResponse (.success v) id_ VERSION_2)) "error"
      = none ∧
    dictGet (objFields (encodeResponse (.failure f) id_ VERSION_2)) "result"
      = none :=
  ⟨rfl, rfl, rfl, rfl, rfl, rfl⟩

/-- C4. Error classification in encodeResponse: the derived error body's
code is INVALID_PARAMS when the wrapped failure is a type error, else the
failure's own errno attribute when it exists, else INTERNAL_ERROR; and the
body carries a data key exactly when the failure exposes a non-null data
attribute. -/
theorem errorClassification (f : PyExc) (id_ : Json) (version : ℚ) :
    dictGet (objFields (encodeResponse (.failure f) id_ version)) "error"
      = some (Json.obj (getErrorResponse f)) ∧
    dictGet (getErrorResponse f) "code"
      = some (Json.int (if f.isTypeError then INVALID_PARAMS
          else match f.errno with | some n => n | none => INTERNAL_ERROR)) ∧
    dictGet (getErrorResponse f) "data" = f.data := by
  obtain ⟨s1, s2, b, en, da⟩ := f
  refine ⟨?_, ?_, ?_⟩
  · by_cases h2 : version = VERSION_2
    · subst h2; rfl
    · by_cases h1 : version = VERSION_1
      · subst h1; rfl
      · simp only [encodeResponse, if_neg h2, if_neg h1]
        rfl
  · cases da <;> rfl
  · cases da <;> rfl

/-- On an object whose result entry is absent or null, decodeResponse moves
on to the error-or-invalid tail. -/
theorem decodeResponse_obj_tail (kvs : List (String × Json))
    (hres : dictGet kvs "result" = none ∨ dictGet kvs "result" = some Json.null) :
    decodeResponse (some (Json.obj kvs)) = decodeResponseTail kvs := by
  simp only [decodeResponse]
  rcases hres with h | h <;> simp [h, Json.isNull]

theorem decodeResponseTail_exc (kvs : List (String × Json)) (e : Json)
    (he : dictGet kvs "error" = some e) (hne : e.isNull = false) :
    decodeResponseTail kvs = .error (.exc e) := by
  simp [decodeResponseTail, he, hne]

theorem decodeResponseTail_invalid (kvs : List (String × Json))
    (he : dictGet kvs "error" = none ∨ dictGet kvs "error" = some Json.null) :
    decodeResponseTail kvs = .error .invalidResponse := by
  rcases he with h | h <;> simp [decodeResponseTail, h, Json.isNull]

/-- C5. decodeResponse contract: a parsed object with a non-null result
entry returns that value; otherwise a non-null error entry fails surfacing
exactly that error body; otherwise the call fails with the local
'Not a valid JSON-RPC response' condition, a bare ValueError distinct from
the error-body-carrying failure shape (it carries no protocol error code at
all). -/
theorem decodeResponseContract (kvs : List (String × Json)) :
    (∀ v, dictGet kvs "result" = some v → v.isNull = false →
      decodeResponse (some (Json.obj kvs)) = .ok v) ∧
    ((dictGet kvs "result" = none ∨ dictGet kvs "result" = some Json.null) →
      (∀ e, dictGet kvs "error" = some e → e.isNull = false →
        decodeResponse (some (Json.obj kvs)) = .error (.exc e)) ∧
      ((dictGet kvs "error" = none ∨ dictGet kvs "error" = some Json.null) →
        decodeResponse (some (Json.obj kvs)) = .error .invalidResponse)) ∧
    (∀ e, RespError.invalidResponse ≠ RespError.exc e) := by
  refine ⟨fun v hv hnn => by simp [decodeResponse, hv, hnn],
    fun hres => ⟨fun e he hne => ?_, fun herr => ?_⟩,
    fun e h => RespError.noConfusion h⟩
  · rw [decodeResponse_obj_tail kvs hres]
    exact decodeResponseTail_exc kvs e he hne
  · rw [decodeResponse_obj_tail kvs hres]
    exact decodeResponseTail_invalid kvs herr

/-- Witness for C5 on three concrete responses: a populated result, a
populated error, and an empty object. -/
theorem decodeResponseContract_witness :
    decodeResponse (some (Json.obj [("result", Json.int 42)]))
      = .ok (Json.int 42) ∧
    decodeResponse (some (Json.obj [("error", Json.str "boom")]))
      = .error (.exc (Json.str "boom")) ∧
    decodeResponse (some (Json.obj [])) = .error .invalidResponse :=
  ⟨(decodeResponseContract [("result", Json.int 42)]).1 (Json.int 42) rfl rfl,
    ((decodeResponseContract [("error", Json.str "boom")]).2.1
      (Or.inl rfl)).1 (Json.str "boom") rfl rfl,
    ((decodeResponseContract []).2.1 (Or.inl rfl)).2 (Or.inl rfl)⟩

/-- C10. Null success payload: encoding a successful None result yields a
wire object whose result field is JSON null — for version 1.0 with an
explicit null error field alongside — and decoding that wire object does
not return the payload: it fails with the 'Not a valid JSON-RPC response'
condition, so a null result does not survive the round trip. -/
theorem nullResultRoundTrip (id_ : Json) (v : ℚ) :
    dictGet (objFields (encodeResponse (.success Json.null) id_ v)) "result"
      = some Json.null ∧
    encodeResponse (.success Json.null) id_ VERSION_1 =
      Json.obj [("id", id_), ("result", Json.null), ("error", Json.null)] ∧
    decodeResponse (some (encodeResponse (.success Json.null) id_ v))
      = .error .invalidResponse := by
  by_cases h2 : v = VERSION_2
  · subst h2; exact ⟨rfl, rfl, rfl⟩
  · by_cases h1 : v = VERSION_1
    · subst h1; exact ⟨rfl, rfl, rfl⟩
    · refine ⟨?_, rfl, ?_⟩ <;> simp only [encodeResponse, if_neg h2, if_neg h1] <;> rfl


theorem isStr_exists (x : Json) (h : x.isStr = true) : ∃ t, x = Json.str t := by
  cases x <;> simp_all [Json.isStr]

theorem isArr_exists (x : Json) (h : x.isArr = true) : ∃ xs, x = Json.arr xs := by
  cases x <;> simp_all [Json.isArr]

/-- The method/params checks succeed exactly on a text method and a list
params, returning the dict unchanged. -/
theorem decodeRequestChecks_ok (d2 : List (String × Json)) (t : String)
    (ps : List Json) (hm : dictGet d2 "method" = some (Json.str t))
    (hp : dictGet d2 "params" = some (Json.arr ps)) :
    decodeRequestChecks d2 = .ok d2 := by
  simp [decodeRequestChecks, hm, hp, Json.isStr, Json.isArr]

/-- A dict of bad shape makes the method/params checks fail with a
structured INVALID_REQUEST error. -/
theorem decodeRequestChecks_invalid (d2 : List (String × Json))
    (hbad : badShape d2) :
    ∃ e, decodeRequestChecks d2 = .error (.rpc e) ∧ e.errno = INVALID_REQUEST := by
  rcases hbad with ⟨m, hm, hms⟩ | ⟨⟨t, ht⟩, p, hp, hpa⟩
  · refine ⟨addContext invalidMethodErr d2, ?_,
      (addContext_spec invalidMethodErr d2).2.1⟩
    simp [decodeRequestChecks, hm, hms]
  · refine ⟨addContext invalidParamsErr d2, ?_,
      (addContext_spec invalidParamsErr d2).2.1⟩
    simp [decodeRequestChecks, ht, hp, hpa, Json.isStr]

/-- A dict set at the jsonrpc key keeps its bad shape. -/
theorem badShape_set (d : List (String × Json)) (x : Json) (h : badShape d) :
    badShape (dictSet d "jsonrpc" x) := by
  rcases h with ⟨m, hm, hms⟩ | ⟨⟨t, ht⟩, p, hp, hpa⟩
  · exact Or.inl ⟨m,
      by rw [dictGet_dictSet_ne d "jsonrpc" "method" x (by decide)]; exact hm, hms⟩
  · exact Or.inr ⟨⟨t,
      by rw [dictGet_dictSet_ne d "jsonrpc" "method" x (by decide)]; exact ht⟩, p,
      by rw [dictGet_dictSet_ne d "jsonrpc" "params" x (by decide)]; exact hp, hpa⟩

/-- On a dict holding method and params entries, the checks either return
the dict or fail with a structured INVALID_REQUEST error. -/
theorem checksOutcome (d2 : List (String × Json)) (m p : Json)
    (hm : dictGet d2 "method" = some m) (hp : dictGet d2 "params" = some p) :
    decodeRequestChecks d2 = .ok d2 ∨
    ∃ e, decodeRequestChecks d2 = .error (.rpc e) ∧ e.errno = INVALID_REQUEST := by
  cases hms : m.isStr with
  | false => exact Or.inr (decodeRequestChecks_invalid d2 (Or.inl ⟨m, hm, hms⟩))
  | true =>
      obtain ⟨t, rfl⟩ := isStr_exists m hms
      cases hpa : p.isArr with
      | false =>
          exact Or.inr (decodeRequestChecks_invalid d2
            (Or.inr ⟨⟨t, hm⟩, p, hp, hpa⟩))
      | true =>
          obtain ⟨ps, rfl⟩ := isArr_exists p hpa
          exact Or.inl (decodeRequestChecks_ok d2 t ps hm hp)

/-- How decodeRequest reduces on a parsed object, by the shape of its
jsonrpc entry: absent or valid shapes hand the jsonrpc-normalized dict to
the method/params checks; a non-numeric string raises ValueError; any other
shape raises the contextualized invalid-jsonrpc error. -/
theorem decode_reduces (d : List (String × Json)) :
    (dictGet d "jsonrpc" = none →
      decodeRequest (some (Json.obj d)) =
        decodeRequestChecks (dictSet d "jsonrpc" (Json.float VERSION_1))) ∧
    (∀ q, dictGet d "jsonrpc" = some (Json.float q) →
      decodeRequest (some (Json.obj d)) =
        decodeRequestChecks (dictSet d "jsonrpc" (Json.float q))) ∧
    (∀ s q, dictGet d "jsonrpc" = some (Json.str s) → pyFloat s = some q →
      decodeRequest (some (Json.obj d)) =
        decodeRequestChecks (dictSet d "jsonrpc" (Json.float q))) ∧
    (∀ s, dictGet d "jsonrpc" = some (Json.str s) → pyFloat s = none →
      decodeRequest (some (Json.obj d)) =
        .error (.valueError "could not convert string to float")) ∧
    (∀ jv, dictGet d "jsonrpc" = some jv → jv.isStr = false →
      jv.isFloat = false →
      decodeRequest (some (Json.obj d)) =
        .error (.rpc (addContext invalidJsonrpcErr d))) := by
  refine ⟨fun hj => ?_, fun q hj => ?_, fun s q hj hq => ?_,
    fun s hj hq => ?_, fun jv hj h1 h2 => ?_⟩
  · show decodeRequestObj d = _
    unfold decodeRequestObj
    rw [hj]
  · show decodeRequestObj d = _
    unfold decodeRequestObj
    rw [hj]
  · have h3 : decodeRequestObj d = jsonrpcStrCase d s := by
      unfold decodeRequestObj
      rw [hj]
    show decodeRequestObj d = _
    rw [h3]
    unfold jsonrpcStrCase
    rw [hq]
  · have h3 : decodeRequestObj d = jsonrpcStrCase d s := by
      unfold decodeRequestObj
      rw [hj]
    show decodeRequestObj d = _
    rw [h3]
    unfold jsonrpcStrCase
    rw [hq]
  · cases jv with
    | str s => simp [Json.isStr] at h1
    | float q => simp [Json.isFloat] at h2
    | null =>
        show decodeRequestObj d = _
        unfold decodeRequestObj
        rw [hj]
    | bool b =>
        show decodeRequestObj d = _
        unfold decodeRequestObj
        rw [hj]
    | int n =>
        show decodeRequestObj d = _
        unfold decodeRequestObj
        rw [hj]
    | arr xs =>
        show decodeRequestObj d = _
        unfold decodeRequestObj
        rw [hj]
    | obj kvs =>
        show decodeRequestObj d = _
        unfold decodeRequestObj
        rw [hj]

/-- C2 counterexample: on the parsed object
{"jsonrpc": "x", "method": 5, "params": []} the method field is not a text
value, yet decodeRequest does not fail with an INVALID_REQUEST error — the
float() conversion of the jsonrpc string raises an uncaught ValueError
first, which carries no protocol code at all. -/
theorem decodeRequestValidation_cex :
    decodeRequest (some (Json.obj
      [("jsonrpc", Json.str "x"), ("method", Json.int 5),
       ("params", Json.arr [])]))
      = .error (.valueError "could not convert string to float") := rfl

/-- C2 (amended). Unparseable text fails with PARSE_ERROR; and on a parsed
object whose jsonrpc entry is not a string that float() rejects, a method
entry that is not a text value, or a text method with a params entry that
is not a list (in particular a mapping), fails with a structured error
carrying INVALID_REQUEST, never silently coercing the value. -/
theorem decodeRequestValidation :
    decodeRequest none = .error (.rpc parseFailedErr) ∧
    parseFailedErr.errno = PARSE_ERROR ∧
    ∀ d, jsonrpcConvertible d = true → badShape d →
      ∃ e, decodeRequest (some (Json.obj d)) = .error (.rpc e) ∧
        e.errno = INVALID_REQUEST := by
  refine ⟨rfl, rfl, fun d hconv hbad => ?_⟩
  cases hj : dictGet d "jsonrpc" with
  | none =>
      rw [(decode_reduces d).1 hj]
      exact decodeRequestChecks_invalid _ (badShape_set d _ hbad)
  | some jv =>
      cases jv with
      | str s =>
          have hcv : (pyFloat s).isSome = true := by
            have h3 : jsonrpcConvertible d = (pyFloat s).isSome := by
              unfold jsonrpcConvertible
              rw [hj]
            rw [← h3]
            exact hconv
          obtain ⟨q, hq⟩ := Option.isSome_iff_exists.mp hcv
          rw [(decode_reduces d).2.2.1 s q hj hq]
          exact decodeRequestChecks_invalid _ (badShape_set d _ hbad)
      | float q =>
          rw [(decode_reduces d).2.1 q hj]
          exact decodeRequestChecks_invalid _ (badShape_set d _ hbad)
      | null =>
          rw [(decode_reduces d).2.2.2.2 Json.null hj rfl rfl]
          exact ⟨_, rfl, (addContext_spec invalidJsonrpcErr d).2.1⟩
      | bool b =>
          rw [(decode_reduces d).2.2.2.2 (Json.bool b) hj rfl rfl]
          exact ⟨_, rfl, (addContext_spec invalidJsonrpcErr d).2.1⟩
      | int n =>
          rw [(decode_reduces d).2.2.2.2 (Json.int n) hj rfl rfl]
          exact ⟨_, rfl, (addContext_spec invalidJsonrpcErr d).2.1⟩
      | arr xs =>
          rw [(decode_reduces d).2.2.2.2 (Json.arr xs) hj rfl rfl]
          exact ⟨_, rfl, (addContext_spec invalidJsonrpcErr d).2.1⟩
      | obj kvs =>
          rw [(decode_reduces d).2.2.2.2 (Json.obj kvs) hj rfl rfl]
          exact ⟨_, rfl, (addContext_spec invalidJsonrpcErr d).2.1⟩

/-- Witness for C2 at the spec's example {"method": 5, "params": []}. -/
theorem decodeRequestValidation_witness :
    ∃ e, decodeRequest (some (Json.obj
      [("method", Json.int 5), ("params", Json.arr [])]))
      = .error (.rpc e) ∧ e.errno = INVALID_REQUEST :=
  decodeRequestValidation.2.2 [("method", Json.int 5), ("params", Json.arr [])]
    rfl (Or.inl ⟨Json.int 5, rfl, rfl⟩)

/-- C7 counterexample: the integer scalar 2 under the jsonrpc key is a
numeric scalar, but decodeRequest fails with INVALID_REQUEST instead of
succeeding with version 2.0 — isinstance(2, (str, float)) is False in
Python because json.loads gives an int. -/
theorem versionNormalization_cex :
    decodeRequest (some (Json.obj
      [("jsonrpc", Json.int 2), ("method", Json.str "foo"),
       ("params", Json.arr [])]))
      = .error (.rpc c7CexErr) := rfl

/-- C7 (amended). On a parsed object with a valid method and params: a
float jsonrpc scalar, or a text scalar that float() converts, makes
decodeRequest succeed with that value normalized to a float in the returned
dict; an absent jsonrpc gives version 1.0; a jsonrpc entry of any
non-text non-float shape (including integer and boolean scalars) fails with
INVALID_REQUEST; a text scalar float() rejects raises an unclassified
ValueError. -/
theorem versionNormalization (d : List (String × Json)) (t : String)
    (ps : List Json)
    (hm : dictGet d "method" = some (Json.str t))
    (hp : dictGet d "params" = some (Json.arr ps)) :
    (∀ q, dictGet d "jsonrpc" = some (Json.float q) →
      decodeRequest (some (Json.obj d))
        = .ok (dictSet d "jsonrpc" (Json.float q))) ∧
    (∀ s q, dictGet d "jsonrpc" = some (Json.str s) → pyFloat s = some q →
      decodeRequest (some (Json.obj d))
        = .ok (dictSet d "jsonrpc" (Json.float q))) ∧
    (∀ s, dictGet d "jsonrpc" = some (Json.str s) → pyFloat s = none →
      decodeRequest (some (Json.obj d))
        = .error (.valueError "could not convert string to float")) ∧
    (dictGet d "jsonrpc" = none →
      decodeRequest (some (Json.obj d))
        = .ok (dictSet d "jsonrpc" (Json.float VERSION_1))) ∧
    (∀ jv, dictGet d "jsonrpc" = some jv → jv.isStr = false →
      jv.isFloat = false →
      ∃ e, decodeRequest (some (Json.obj d)) = .error (.rpc e) ∧
        e.errno = INVALID_REQUEST ∧ e.version = jv) := by
  have hmq : ∀ x : Json, dictGet (dictSet d "jsonrpc" x) "method"
      = some (Json.str t) := fun x => by
    rw [dictGet_dictSet_ne d "jsonrpc" "method" x (by decide)]
    exact hm
  have hpq : ∀ x : Json, dictGet (dictSet d "jsonrpc" x) "params"
      = some (Json.arr ps) := fun x => by
    rw [dictGet_dictSet_ne d "jsonrpc" "params" x (by decide)]
    exact hp
  refine ⟨fun q hj => ?_, fun s q hj hq => ?_,
    fun s hj hq => (decode_reduces d).2.2.2.1 s hj hq, fun hj => ?_,
    fun jv hj h1 h2 => ?_⟩
  · rw [(decode_reduces d).2.1 q hj]
    exact decodeRequestChecks_ok _ t ps (hmq _) (hpq _)
  · rw [(decode_reduces d).2.2.1 s q hj hq]
    exact decodeRequestChecks_ok _ t ps (hmq _) (hpq _)
  · rw [(decode_reduces d).1 hj]
    exact decodeRequestChecks_ok _ t ps (hmq _) (hpq _)
  · refine ⟨addContext invalidJsonrpcErr d,
      (decode_reduces d).2.2.2.2 jv hj h1 h2,
      (addContext_spec invalidJsonrpcErr d).2.1, ?_⟩
    rw [(addContext_spec invalidJsonrpcErr d).2.2.2.2, hj]
    rfl

/-- Witness for C7 on a float jsonrpc 2.0 and on an absent jsonrpc. -/
theorem versionNormalization_witness :
    decodeRequest (some (Json.obj
      [("method", Json.str "m"), ("params", Json.arr []),
       ("jsonrpc", Json.float 2)]))
      = .ok [("method", Json.str "m"), ("params", Json.arr []),
             ("jsonrpc", Json.float 2)] ∧
    decodeRequest (some (Json.obj
      [("method", Json.str "m"), ("params", Json.arr [])]))
      = .ok [("method", Json.str "m"), ("params", Json.arr []),
             ("jsonrpc", Json.float 1)] :=
  ⟨(versionNormalization
      [("method", Json.str "m"), ("params", Json.arr []),
       ("jsonrpc", Json.float 2)] "m" [] rfl rfl).1 2 rfl,
    (versionNormalization
      [("method", Json.str "m"), ("params", Json.arr [])] "m" [] rfl
      rfl).2.2.2.1 rfl⟩

/-- C9 counterexample: on the parsed object {"params": []} — which lacks a
method key — decodeRequest raises a KeyError, an unclassified Python error
outside the Error Model, rather than a structured RPCError. -/
theorem totalStructuredFailure_cex :
    decodeRequest (some (Json.obj [("params", Json.arr [])]))
      = .error (.keyError "method") := rfl

/-- C9 (amended). decodeRequest never swallows errors silently: unparseable
text fails with PARSE_ERROR, and on a parsed object carrying method and
params keys whose jsonrpc entry is not a non-numeric string, the call
either returns the validated request or fails with a structured error
carrying INVALID_REQUEST. Outside that guard the failure can escape as an
unclassified KeyError, TypeError or ValueError (see the counterexample). -/
theorem totalStructuredFailure :
    decodeRequest none = .error (.rpc parseFailedErr) ∧
    parseFailedErr.errno = PARSE_ERROR ∧
    ∀ d, jsonrpcConvertible d = true →
      (dictGet d "method").isSome = true →
      (dictGet d "params").isSome = true →
      (∃ out, decodeRequest (some (Json.obj d)) = .ok out) ∨
      ∃ e, decodeRequest (some (Json.obj d)) = .error (.rpc e) ∧
        e.errno = INVALID_REQUEST := by
  refine ⟨rfl, rfl, fun d hconv hm0 hp0 => ?_⟩
  obtain ⟨m, hm⟩ := Option.isSome_iff_exists.mp hm0
  obtain ⟨p, hp⟩ := Option.isSome_iff_exists.mp hp0
  have hstep : ∀ x : Json,
      decodeRequest (some (Json.obj d))
        = decodeRequestChecks (dictSet d "jsonrpc" x) →
      (∃ out, decodeRequest (some (Json.obj d)) = .ok out) ∨
      ∃ e, decodeRequest (some (Json.obj d)) = .error (.rpc e) ∧
        e.errno = INVALID_REQUEST := by
    intro x hred
    have hm2 : dictGet (dictSet d "jsonrpc" x) "method" = some m := by
      rw [dictGet_dictSet_ne d "jsonrpc" "method" x (by decide)]
      exact hm
    have hp2 : dictGet (dictSet d "jsonrpc" x) "params" = some p := by
      rw [dictGet_dictSet_ne d "jsonrpc" "params" x (by decide)]
      exact hp
    rcases checksOutcome _ m p hm2 hp2 with hok | ⟨e, he, herrno⟩
    · exact Or.inl ⟨_, hred.trans hok⟩
    · exact Or.inr ⟨e, hred.trans he, herrno⟩
  cases hj : dictGet d "jsonrpc" with
  | none => exact hstep _ ((decode_reduces d).1 hj)
  | some jv =>
      cases jv with
      | str s =>
          have hcv : (pyFloat s).isSome = true := by
            have h3 : jsonrpcConvertible d = (pyFloat s).isSome := by
              unfold jsonrpcConvertible
              rw [hj]
            rw [← h3]
            exact hconv
          obtain ⟨q, hq⟩ := Option.isSome_iff_exists.mp hcv
          exact hstep _ ((decode_reduces d).2.2.1 s q hj hq)
      | float q => exact hstep _ ((decode_reduces d).2.1 q hj)
      | null =>
          exact Or.inr ⟨_, (decode_reduces d).2.2.2.2 Json.null hj rfl rfl,
            (addContext_spec invalidJsonrpcErr d).2.1⟩
      | bool b =>
          exact Or.inr ⟨_, (decode_reduces d).2.2.2.2 (Json.bool b) hj rfl rfl,
            (addContext_spec invalidJsonrpcErr d).2.1⟩
      | int n =>
          exact Or.inr ⟨_, (decode_reduces d).2.2.2.2 (Json.int n) hj rfl rfl,
            (addContext_spec invalidJsonrpcErr d).2.1⟩
      | arr xs =>
          exact Or.inr ⟨_, (decode_reduces d).2.2.2.2 (Json.arr xs) hj rfl rfl,
            (addContext_spec invalidJsonrpcErr d).2.1⟩
      | obj kvs =>
          exact Or.inr ⟨_, (decode_reduces d).2.2.2.2 (Json.obj kvs) hj rfl rfl,
            (addContext_spec invalidJsonrpcErr d).2.1⟩

/-- Witness for C9 at the parsed object {"method": "m", "params": []}. -/
theorem totalStructuredFailure_witness :
    (∃ out, decodeRequest (some (Json.obj
      [("method", Json.str "m"), ("params", Json.arr [])])) = .ok out) ∨
    ∃ e, decodeRequest (some (Json.obj
      [("method", Json.str "m"), ("params", Json.arr [])]))
      = .error (.rpc e) ∧ e.errno = INVALID_REQUEST :=
  totalStructuredFailure.2.2 [("method", Json.str "m"), ("params", Json.arr [])]
    rfl rfl rfl

end FastJsonRpc
